import Mathlib

/-
  Verification development for the gsqlite driver: a shallow embedding of
  the statement lifecycle and result-iteration engine of
  src/gsqlite/cursor.py, connection.py, description.py, lastrowid.py and
  utils.py, together with proofs of the behavioural properties stated in
  the specification.

  The native sqlite3 engine is modelled by the upstream contract the spec
  describes (prepare/step/reset/finalize, typed binds and column reads,
  a last-insert-row-id scoped to the connection).  Where the Python code's
  foreign-function marshalling is decisive and deterministic it is
  modelled too: an undeclared C `int` parameter wraps the Python integer
  into the signed 32-bit range, `ctypes.c_void_p(value)` applied to a
  bytes object raises TypeError, a `c_char_p` result is read up to the
  first NUL byte, and a call whose restype was never declared is read
  through ctypes' default C `int` return type — wrapping an int64
  return value to 32 bits, and producing an unrelated integer register
  value for a function that returns a double.
-/

namespace GSqlite

/-- Modelled from the spec: the repository's `constants` module is imported
    by cursor.py, utils.py and connection.py but is absent from the sources.
    These are the native engine's status codes (the success set "ok",
    "row-available", "done" of section 6 of the spec) and the column type
    tags, with the values of the public sqlite3 C ABI. -/
def SQLITE_OK : Nat := 0

/-- Modelled from the spec: native status code for "row-available". -/
def SQLITE_ROW : Nat := 100

/-- Modelled from the spec: native status code for "done". -/
def SQLITE_DONE : Nat := 101

/-- Modelled from the spec: native column type tag for integers. -/
def SQLITE_INTEGER : Nat := 1

/-- Modelled from the spec: native column type tag for doubles. -/
def SQLITE_FLOAT : Nat := 2

/-- Modelled from the spec: native column type tag for text. -/
def SQLITE_TEXT : Nat := 3

/-- Modelled from the spec: alias tag for text (sqlite3 defines both
    SQLITE_TEXT and SQLITE3_TEXT as 3). -/
def SQLITE3_TEXT : Nat := 3

/-- Modelled from the spec: native column type tag for blobs. -/
def SQLITE_BLOB : Nat := 4

/-- Modelled from the spec: native column type tag for null. -/
def SQLITE_NULL : Nat := 5

/-- A Python float, carried as its 64-bit pattern.  The driver never
    inspects or transforms float payloads: it passes them through the
    foreign interface unchanged, so the payload representation is opaque
    here. -/
structure F64 where
  bits : Nat
deriving DecidableEq

/-- A driver-level scalar value: the `TElem` union of cursor.py
    (int, float, str, bytes, NoneType). -/
inductive TElem where
  | int (i : Int)
  | float (f : F64)
  | str (s : String)
  | bytes (b : List Nat)
  | none
deriving DecidableEq

/-- The Python exceptions the embedded code can raise: the driver's own
    taxonomy (exceptions.py) plus the builtin exceptions that escape from
    cursor.py as written. -/
inductive PyError where
  | programmingError (msg : String)
  | databaseError (msg : String)
  | typeError (msg : String)
  | valueError (msg : String)
  | indexError
  | notImplementedError
  | unicodeDecodeError
deriving DecidableEq

instance {ε α : Type} [DecidableEq ε] [DecidableEq α] : DecidableEq (Except ε α) :=
  fun a b =>
    match a, b with
    | .ok x, .ok y =>
      if h : x = y then isTrue (by rw [h]) else isFalse (fun hc => h (by cases hc; rfl))
    | .error x, .error y =>
      if h : x = y then isTrue (by rw [h]) else isFalse (fun hc => h (by cases hc; rfl))
    | .ok _, .error _ => isFalse (fun hc => Except.noConfusion hc)
    | .error _, .ok _ => isFalse (fun hc => Except.noConfusion hc)

/-- Conversion ctypes applies when a Python int is passed for a C `int`
    parameter with no argtypes declared: the value wraps into the signed
    32-bit range (two's complement). -/
def toCInt (i : Int) : Int :=
  (i + 2147483648) % 4294967296 - 2147483648

/-- UTF-8 encoding of one character (1 to 4 bytes). -/
def utf8EncodeChar (c : Char) : List Nat :=
  let n := c.toNat
  if n < 0x80 then [n]
  else if n < 0x800 then [0xC0 + n / 0x40, 0x80 + n % 0x40]
  else if n < 0x10000 then
    [0xE0 + n / 0x1000, 0x80 + (n / 0x40) % 0x40, 0x80 + n % 0x40]
  else
    [0xF0 + n / 0x40000, 0x80 + (n / 0x1000) % 0x40,
     0x80 + (n / 0x40) % 0x40, 0x80 + n % 0x40]

/-- The byte sequence produced by Python's `value.encode("utf-8")`. -/
def utf8Encode (s : String) : List Nat :=
  (s.data.map utf8EncodeChar).flatten

/-- Worker for strict UTF-8 decoding, one byte at a time: `k` pending
    continuation bytes, `cp` the codepoint accumulated so far, `minv` the
    smallest codepoint the current sequence is allowed to produce (the
    overlong check).  Surrogates and codepoints above U+10FFFF are
    rejected when a sequence completes. -/
def utf8DecodeAux : List Nat → Nat → Nat → Nat → Option (List Char)
  | [], 0, _, _ => some []
  | [], _ + 1, _, _ => Option.none
  | b :: bs, 0, _, _ =>
    if b < 0x80 then
      (utf8DecodeAux bs 0 0 0).map (fun cs => Char.ofNat b :: cs)
    else if b < 0xC2 then Option.none
    else if b < 0xE0 then utf8DecodeAux bs 1 (b - 0xC0) 0x80
    else if b < 0xF0 then utf8DecodeAux bs 2 (b - 0xE0) 0x800
    else if b < 0xF5 then utf8DecodeAux bs 3 (b - 0xF0) 0x10000
    else Option.none
  | b :: bs, k + 1, cp, minv =>
    if 0x80 ≤ b ∧ b < 0xC0 then
      match k with
      | 0 =>
        if minv ≤ cp * 0x40 + (b - 0x80) ∧
           (cp * 0x40 + (b - 0x80) < 0xD800 ∨ 0xDFFF < cp * 0x40 + (b - 0x80)) ∧
           cp * 0x40 + (b - 0x80) < 0x110000 then
          (utf8DecodeAux bs 0 0 0).map
            (fun cs => Char.ofNat (cp * 0x40 + (b - 0x80)) :: cs)
        else Option.none
      | k2 + 1 => utf8DecodeAux bs (k2 + 1) (cp * 0x40 + (b - 0x80)) minv
    else Option.none

/-- Strict UTF-8 decoding, as done by Python's `bytes.decode("utf-8")`:
    rejects truncated sequences, stray continuation bytes, overlong forms,
    surrogates and values above U+10FFFF. -/
def utf8Decode (bs : List Nat) : Option (List Char) :=
  utf8DecodeAux bs 0 0 0

/-- One native bind call, as issued by `bind_param` in cursor.py: the
    native function chosen together with the arguments that reach the
    engine. -/
inductive BindCall where
  | bindInt (v : Int)
  | bindDouble (f : F64)
  | bindText (buf : List Nat) (n : Nat) (forceCopy : Bool)
  | bindBlob (buf : List Nat) (n : Nat) (forceCopy : Bool)
  | bindNull
deriving DecidableEq

/-- `bind_param` of cursor.py, by runtime type of the value:
    an int goes through `sqlite3_bind_int` (C `int` parameter, so the
    value is wrapped to 32 bits by the ctypes conversion); a float through
    `sqlite3_bind_double`; a str through `sqlite3_bind_text` with the
    UTF-8 encoded buffer, a byte count of `len(value)` (the character
    count of the Python string) and the force-copy destructor; a bytes
    value is passed to `ctypes.c_void_p(value)`, which raises TypeError
    for a bytes object; None goes through `sqlite3_bind_null`. -/
def bind_param (value : TElem) : Except PyError BindCall :=
  match value with
  | .int i => .ok (.bindInt (toCInt i))
  | .float f => .ok (.bindDouble f)
  | .str s => .ok (.bindText (utf8Encode s) s.length true)
  | .bytes _ => .error (.typeError "cannot be converted to pointer")
  | .none => .ok .bindNull

/-- A value stored in one cell of the native engine. -/
inductive SqlValue where
  | integer (i : Int)
  | real (f : F64)
  | text (b : List Nat)
  | blob (b : List Nat)
  | null
deriving DecidableEq

/-- What the native engine stores for one bind call: text and blob binds
    take exactly the first `n` bytes of the supplied buffer. -/
def sqlite3_bind_store : BindCall → SqlValue
  | .bindInt v => .integer v
  | .bindDouble f => .real f
  | .bindText buf n _ => .text (buf.take n)
  | .bindBlob buf n _ => .blob (buf.take n)
  | .bindNull => .null

/-- `sqlite3_column_type`: the declared runtime type tag of a cell. -/
def sqlite3_column_type : SqlValue → Nat
  | .integer _ => SQLITE_INTEGER
  | .real _ => SQLITE_FLOAT
  | .text _ => SQLITE_TEXT
  | .blob _ => SQLITE_BLOB
  | .null => SQLITE_NULL

/-- `sqlite3_column_int`: reads the cell as a C `int` (32-bit return). -/
def sqlite3_column_int : SqlValue → Int
  | .integer i => toCInt i
  | _ => 0

/-- The value the `sqlite3_column_double` call in get_column actually
    produces: the source never declares a restype for it, so ctypes
    applies its default C `int` return type to a function that returns
    its double in a floating-point register — the Python value is
    whatever the integer return register happens to hold, an int
    unrelated to the stored double.  That register content is
    unspecified by the ABI; it is represented here by one arbitrary
    fixed value, and no theorem in this file depends on which value it
    is — only on the fact that the read yields an int and never the
    stored double. -/
def column_double_restype_garbage : Int := 0

/-- `sqlite3_column_double` as the source calls it (restype never
    declared): the call returns a garbage C int, not the stored
    double. -/
def sqlite3_column_double (_cell : SqlValue) : Int :=
  column_double_restype_garbage

/-- `sqlite3_column_text` read through the `c_char_p` restype declared in
    get_column: the stored bytes up to the first NUL byte. -/
def sqlite3_column_text : SqlValue → List Nat
  | .text b => b.takeWhile (fun x => x ≠ 0)
  | _ => []

/-- `get_column` of cursor.py: dispatches on the native type tag; integer,
    float, text (either text tag) and null are handled, anything else
    (in particular the blob tag) raises NotImplementedError.  The float
    read comes back as the garbage C int of the undeclared restype, the
    text read is decoded strictly as UTF-8. -/
def get_column (cell : SqlValue) : Except PyError TElem :=
  let column_type := sqlite3_column_type cell
  if column_type = SQLITE_INTEGER then
    .ok (.int (sqlite3_column_int cell))
  else if column_type = SQLITE_FLOAT then
    .ok (.int (sqlite3_column_double cell))
  else if column_type = SQLITE_TEXT ∨ column_type = SQLITE3_TEXT then
    match utf8Decode (sqlite3_column_text cell) with
    | some cs => .ok (.str (String.mk cs))
    | Option.none => .error .unicodeDecodeError
  else if column_type = SQLITE_NULL then
    .ok .none
  else
    .error .notImplementedError

/-- Binding a value as a parameter of a round-trip statement and reading
    it back as a column value: bind_param encodes, the engine stores the
    bind, get_column decodes. -/
def roundTrip (v : TElem) : Except PyError TElem :=
  match bind_param v with
  | .error e => .error e
  | .ok call => get_column (sqlite3_bind_store call)

/-- Python's `str.upper()` on one character, for the ASCII range the
    command keywords live in. -/
def pyUpperChar (c : Char) : Char :=
  if 97 ≤ c.toNat ∧ c.toNat ≤ 122 then Char.ofNat (c.toNat - 32) else c

/-- Python's `str.upper()`. -/
def pyUpper (s : String) : String :=
  String.mk (s.data.map pyUpperChar)

/-- Worker for `str.split()`: walks the characters accumulating the
    current token (reversed), emitting it at each whitespace run. -/
def pySplitGo : List Char → List Char → List String
  | [], acc => if acc = [] then [] else [String.mk acc.reverse]
  | c :: cs, acc =>
    if c.isWhitespace then
      if acc = [] then pySplitGo cs []
      else String.mk acc.reverse :: pySplitGo cs []
    else pySplitGo cs (c :: acc)

/-- Python's `str.split()` with no argument: whitespace-delimited tokens,
    empty pieces dropped. -/
def pySplit (s : String) : List String :=
  pySplitGo s.data []

/-- `get_operation_command` of utils.py: `operation.split()[0].upper()`.
    Indexing an empty token list raises IndexError. -/
def get_operation_command (operation : String) : Except PyError String :=
  match pySplit operation with
  | [] => .error .indexError
  | t :: _ => .ok (pyUpper t)

/-- The fixed command set `DML_COMMANDS` of `is_dml_operation`. -/
def DML_COMMANDS : List String :=
  ["INSERT", "DELETE", "UPDATE", "CALL", "LOCK", "EXPLAIN_CALL"]

/-- `is_dql_opreation` of utils.py (source spelling): the command is
    exactly SELECT. -/
def is_dql_opreation (operation : String) : Except PyError Bool :=
  (get_operation_command operation).map (fun c => decide (c = "SELECT"))

/-- `is_dml_operation` of utils.py: the command is in the fixed set. -/
def is_dml_operation (operation : String) : Except PyError Bool :=
  (get_operation_command operation).map (fun c => decide (c ∈ DML_COMMANDS))

/-- What preparing one SQL text yields on the native side: the result
    column names and the rows stepping will produce.  The engine's SQL
    semantics are out of scope (owned by the embedded engine), so they are
    an oracle parameter of the engine state. -/
structure StmtTemplate where
  colNames : List String
  rows : List (List SqlValue)

/-- The native database handle's state: the compilation oracle, a fresh
    handle counter, the set of live (prepared, not yet finalized)
    statement handles, a counter of native step calls issued, and the
    connection-scoped last-insert-row-id value. -/
structure Engine where
  compile : String → StmtTemplate
  nextHandle : Nat
  live : List Nat
  steps : Nat
  lastInsertRowid : Int

/-- One compiled statement as held by the execution layer: the opaque
    handle plus the template the engine compiled for it. -/
structure PreparedStmt where
  handle : Nat
  colNames : List String
  rows : List (List SqlValue)

/-- The state of `CursorIterator` in cursor.py: the row made current by
    the most recent step (if any), the rows later steps will produce, the
    status code returned by the most recent step, and the data count read
    once at construction. -/
structure CursorIterator where
  current : Option (List SqlValue)
  pending : List (List SqlValue)
  prev_step_rc : Nat
  data_count : Nat

/-- One native `sqlite3_step` on a statement's row source: makes the next
    row current and reports "row-available", or reports "done" when no
    rows remain. -/
def stepRun : List (List SqlValue) →
    Option (List SqlValue) × List (List SqlValue) × Nat
  | [] => (Option.none, [], SQLITE_DONE)
  | r :: rs => (some r, rs, SQLITE_ROW)

/-- `CursorIterator.exec_and_iter`: performs one step immediately and
    captures its status as the iterator's current state; `sqlite3_data_count`
    is read once (0 when the first step already reported "done"). -/
def CursorIterator.exec_and_iter (engine : Engine) (stmt : PreparedStmt) :
    Engine × CursorIterator :=
  ({ engine with steps := engine.steps + 1 },
   { current := (stepRun stmt.rows).1, pending := (stepRun stmt.rows).2.1,
     prev_step_rc := (stepRun stmt.rows).2.2,
     data_count := ((stepRun stmt.rows).1.getD []).length })

/-- The row read `__next__` performs before advancing: `get_column` across
    the column indices 0 to data_count - 1 of the current row (a native
    column read outside the row yields the null cell). -/
def readRow (row : List SqlValue) (n : Nat) : Except PyError (List TElem) :=
  (List.range n).mapM (fun index => get_column (row.getD index .null))

/-- The iterator state after the advancing native step of `__next__`:
    the step's row becomes current, its status is stored, and the data
    count (read once at construction) is kept. -/
def CursorIterator.afterStep (it : CursorIterator) : CursorIterator :=
  { current := (stepRun it.pending).1, pending := (stepRun it.pending).2.1,
    prev_step_rc := (stepRun it.pending).2.2, data_count := it.data_count }

/-- `CursorIterator.__next__`: if the most recent step reported "done",
    raise StopIteration (modelled as `.ok Option.none`) without touching
    the native statement; otherwise read the current row, advance with one
    native step, store the new status and yield the row read before the
    advance.  A column-read failure propagates before any step is
    issued. -/
def CursorIterator.next (engine : Engine) (it : CursorIterator) :
    Engine × CursorIterator × Except PyError (Option (List TElem)) :=
  if it.prev_step_rc = SQLITE_DONE then
    (engine, it, .ok Option.none)
  else
    match readRow (it.current.getD []) it.data_count with
    | .error e => (engine, it, .error e)
    | .ok r =>
      ({ engine with steps := engine.steps + 1 }, it.afterStep, .ok (some r))

/-- The per-cursor state of the execution and fetch layers plus the two
    hook mixins: the layer's statement and operation references, the
    current iterator, `arraysize`, and the hook-owned `description` and
    `lastrowid` attributes. -/
structure Cursor where
  statement : Option PreparedStmt := Option.none
  operation : Option String := Option.none
  iterator : Option CursorIterator := Option.none
  arraysize : Int := 1
  description : Option (List (String × List (Option TElem))) := Option.none
  lastrowid : Option Int := Option.none

/-- The engine and one cursor, threaded through every operation the way
    the Python object graph shares them. -/
structure DriverState where
  engine : Engine
  cursor : Cursor

/-- `CursorExecutionLayer.__finalize`: clears the iterator; if a statement
    is held, releases its native handle and nulls the layer's reference;
    otherwise no native call is made. -/
def finalizeStmt (st : DriverState) : DriverState :=
  let c := { st.cursor with iterator := Option.none }
  match c.statement with
  | Option.none => { st with cursor := c }
  | some s =>
    { engine := { st.engine with live := st.engine.live.erase s.handle },
      cursor := { c with statement := Option.none } }

/-- `CursorExecutionLayer.__prepare`: finalizes the previous statement
    first, stores the operation text, and prepares the text into a fresh
    native statement handle on the connection's database handle. -/
def prepareStmt (st : DriverState) (operation : String) :
    DriverState × PreparedStmt :=
  let st1 := finalizeStmt st
  let h := st1.engine.nextHandle
  let t := st1.engine.compile operation
  let s : PreparedStmt := { handle := h, colNames := t.colNames, rows := t.rows }
  ({ engine := { st1.engine with nextHandle := h + 1, live := h :: st1.engine.live },
     cursor := { st1.cursor with operation := some operation, statement := some s } },
   s)

/-- `CursorExecutionLayer.__bind`: binds the parameters positionally
    (1-based) through the value codec; the first failing bind raises.
    The bound values live inside the native statement and are otherwise
    unobservable, so only success or the raised error is recorded. -/
def bindAll : List TElem → Option PyError
  | [] => Option.none
  | v :: vs =>
    match bind_param v with
    | .error e => some e
    | .ok _ => bindAll vs

/-- One 7-element description record: the column name followed by the six
    DB-API placeholder fields, all null. -/
def descriptionRecord (name : String) : String × List (Option TElem) :=
  (name, [Option.none, Option.none, Option.none, Option.none, Option.none,
          Option.none])

/-- `DescriptionMixin._update_description`: a non-SELECT command sets
    `description` to none; a SELECT command reads the native column count
    and names of the layer's statement and stores one record per
    column. -/
def update_description (st : DriverState) (operation : String) :
    DriverState × Option PyError :=
  match is_dql_opreation operation with
  | .error e => (st, some e)
  | .ok false =>
    ({ st with cursor := { st.cursor with description := Option.none } },
     Option.none)
  | .ok true =>
    let colNames :=
      match st.cursor.statement with
      | some s => s.colNames
      | Option.none => []
    ({ st with cursor :=
        { st.cursor with description := some (colNames.map descriptionRecord) } },
     Option.none)

/-- `LastrowidMixin._update_lastrowid`: a command other than INSERT or
    REPLACE sets `lastrowid` to none; otherwise the native
    last-insert-row-id is read from the connection's database handle
    (connection-scoped, not statement-scoped) and stored.  The native
    function returns sqlite3_int64 but no restype is declared for it, so
    ctypes reads the return through its default C `int` type and the
    stored value is the native one wrapped into the signed 32-bit
    range. -/
def update_lastrowid (st : DriverState) (operation : String) :
    DriverState × Option PyError :=
  match get_operation_command operation with
  | .error e => (st, some e)
  | .ok c =>
    if c = "INSERT" ∨ c = "REPLACE" then
      ({ st with cursor :=
          { st.cursor with
            lastrowid := some (toCInt st.engine.lastInsertRowid) } },
       Option.none)
    else
      ({ st with cursor := { st.cursor with lastrowid := Option.none } },
       Option.none)

/-- `CursorExecutionLayer.__call_hooks`: the hooks registered at Cursor
    construction run in registration order, `_update_description` then
    `_update_lastrowid`, each receiving the connection, the statement and
    the operation text. -/
def call_hooks (st : DriverState) (operation : String) :
    DriverState × Option PyError :=
  match update_description st operation with
  | (st1, some e) => (st1, some e)
  | (st1, Option.none) => update_lastrowid st1 operation

/-- `CursorExecutionLayer.execute`: prepare (finalizing any previous
    statement), bind the parameters, construct the iterator with
    `exec_and_iter` (performing the first step), then run the hooks.
    A bind failure raises after the prepare has already replaced the
    statement and before any iterator exists. -/
def execute (st : DriverState) (operation : String) (params : List TElem) :
    DriverState × Option PyError :=
  let (st1, s) := prepareStmt st operation
  match bindAll params with
  | some e => (st1, some e)
  | Option.none =>
    let (eng, it) := CursorIterator.exec_and_iter st1.engine s
    let st2 : DriverState :=
      { engine := eng, cursor := { st1.cursor with iterator := some it } }
    call_hooks st2 operation

/-- The bind-step-reset loop of `executemany`: for each parameter tuple,
    bind, issue one guarded native step, and reset the statement to allow
    rebinding.  A bind failure raises out of the loop. -/
def emLoop (st : DriverState) : List (List TElem) → DriverState × Option PyError
  | [] => (st, Option.none)
  | params :: rest =>
    match bindAll params with
    | some e => (st, some e)
    | Option.none =>
      emLoop { st with engine := { st.engine with steps := st.engine.steps + 1 } }
        rest

/-- `CursorExecutionLayer.executemany`: rejects any text not classified
    as Data-Manipulation with a programming error before touching the
    native layer; otherwise prepares once, runs the bind-step-reset loop,
    clears the iterator, and runs the hooks once with the operation
    text. -/
def executemany (st : DriverState) (operation : String)
    (seq_of_params : List (List TElem)) : DriverState × Option PyError :=
  match is_dml_operation operation with
  | .error e => (st, some e)
  | .ok false =>
    (st, some (.programmingError "executemany() can only execute DML statements."))
  | .ok true =>
    let (st1, _) := prepareStmt st operation
    match emLoop st1 seq_of_params with
    | (st2, some e) => (st2, some e)
    | (st2, Option.none) =>
      let st3 : DriverState :=
        { st2 with cursor := { st2.cursor with iterator := Option.none } }
      call_hooks st3 operation

/-- `CursorFetchLayer.fetchone`: next row of the layer's current
    iteration, or none when the iteration is exhausted (StopIteration is
    caught) or no iterator exists. -/
def fetchone (st : DriverState) :
    DriverState × Except PyError (Option (List TElem)) :=
  match st.cursor.iterator with
  | Option.none => (st, .ok Option.none)
  | some it =>
    let (eng, it2, res) := CursorIterator.next st.engine it
    ({ engine := eng, cursor := { st.cursor with iterator := some it2 } }, res)

/-- Eager materialization of up to `n` rows, as `itertools.islice` does:
    stops early at exhaustion, propagates a row-production failure. -/
def fetchLoop (st : DriverState) : Nat →
    DriverState × Except PyError (List (List TElem))
  | 0 => (st, .ok [])
  | Nat.succ n =>
    match fetchone st with
    | (st1, .error e) => (st1, .error e)
    | (st1, .ok Option.none) => (st1, .ok [])
    | (st1, .ok (some r)) =>
      match fetchLoop st1 n with
      | (st2, .error e) => (st2, .error e)
      | (st2, .ok rs) => (st2, .ok (r :: rs))

/-- `CursorFetchLayer.fetchmany`: materializes up to `size or arraysize`
    rows; the truthiness test means both an explicit size of 0 and the
    no-argument call fall back to `arraysize`.  A negative count is
    rejected by `itertools.islice` with ValueError. -/
def fetchmany (st : DriverState) (size : Option Int) :
    DriverState × Except PyError (List (List TElem)) :=
  let n : Int :=
    match size with
    | some s => if s = 0 then st.cursor.arraysize else s
    | Option.none => st.cursor.arraysize
  if n < 0 then
    (st, .error (.valueError "Indices for islice() must be None or an integer: 0 <= x <= sys.maxsize."))
  else
    fetchLoop st n.toNat

/-- The loop body of `list(iterator)` for an iterator whose most recent
    step did not report "done": read the current row, advance, and keep
    collecting until the advance reports "done" (the following `__next__`
    then raises StopIteration with the iterator state unchanged).  The
    recursion is structural on the rows the statement has yet to
    produce. -/
def drainGo (engine : Engine) (rc dc : Nat) (cur : Option (List SqlValue)) :
    List (List SqlValue) →
    Engine × CursorIterator × Except PyError (List (List TElem))
  | [] =>
    match readRow (cur.getD []) dc with
    | .error e =>
      (engine, { current := cur, pending := [], prev_step_rc := rc,
                 data_count := dc }, .error e)
    | .ok r =>
      ({ engine with steps := engine.steps + 1 },
       { current := Option.none, pending := [], prev_step_rc := SQLITE_DONE,
         data_count := dc }, .ok [r])
  | q :: qs =>
    match readRow (cur.getD []) dc with
    | .error e =>
      (engine, { current := cur, pending := q :: qs, prev_step_rc := rc,
                 data_count := dc }, .error e)
    | .ok r =>
      match drainGo { engine with steps := engine.steps + 1 } SQLITE_ROW dc
          (some q) qs with
      | (eng2, it2, .error e) => (eng2, it2, .error e)
      | (eng2, it2, .ok rs) => (eng2, it2, .ok (r :: rs))

/-- `list(iterator)`: repeated `__next__` until StopIteration,
    materializing every remaining row. -/
def drainIter (engine : Engine) (it : CursorIterator) :
    Engine × CursorIterator × Except PyError (List (List TElem)) :=
  if it.prev_step_rc = SQLITE_DONE then
    (engine, it, .ok [])
  else
    drainGo engine it.prev_step_rc it.data_count it.current it.pending

/-- `CursorFetchLayer.fetchall`: materializes every remaining row of the
    current iteration; with no iterator (after `executemany` or before any
    `execute`) there is nothing to fetch. -/
def fetchall (st : DriverState) :
    DriverState × Except PyError (List (List TElem)) :=
  match st.cursor.iterator with
  | Option.none => (st, .ok [])
  | some it =>
    match drainIter st.engine it with
    | (eng, it2, res) =>
      ({ engine := eng, cursor := { st.cursor with iterator := some it2 } }, res)

/-- The `arraysize` setter of `CursorFetchLayer`: a non-int value raises
    TypeError, an int below 1 raises ValueError, and only after both
    checks is the attribute mutated. -/
def setArraysize (st : DriverState) (value : TElem) :
    DriverState × Option PyError :=
  match value with
  | .int i =>
    if i < 1 then
      (st, some (.valueError "Attribute arraysize must be 1 or more."))
    else
      ({ st with cursor := { st.cursor with arraysize := i } }, Option.none)
  | _ => (st, some (.typeError "Attribute arraysize must be int."))

/-- `CursorExecutionLayer.close`: takes an operation argument and does
    nothing; the Cursor has no closed flag and no public cursor operation
    checks one. -/
def cursorClose (st : DriverState) (operation : String) : DriverState := st

/-- The Connection state: the irreversible closed flag.  The native
    database handle it wraps is the `Engine`. -/
structure Connection where
  closed : Bool
deriving DecidableEq

/-- `Connection.__not_closed_guard`: rejects any operation on a closed
    connection with a programming error. -/
def notClosedGuard (c : Connection) : Option PyError :=
  if c.closed then
    some (.programmingError "Cannot operate on a closed database.")
  else
    Option.none

/-- `Connection.cursor`: guarded; returns a fresh Cursor bound to this
    connection. -/
def connectionCursor (eng : Engine) (c : Connection) :
    (Engine × Connection) × Except PyError Cursor :=
  match notClosedGuard c with
  | some e => ((eng, c), .error e)
  | Option.none => ((eng, c), .ok {})

/-- `Connection.commit`: guarded; executes COMMIT through a throwaway
    cursor. -/
def connectionCommit (eng : Engine) (c : Connection) :
    (Engine × Connection) × Option PyError :=
  match notClosedGuard c with
  | some e => ((eng, c), some e)
  | Option.none =>
    let (st, err) := execute { engine := eng, cursor := {} } "COMMIT" []
    ((st.engine, c), err)

/-- `Connection.rollback`: guarded; executes ROLLBACK through a throwaway
    cursor. -/
def connectionRollback (eng : Engine) (c : Connection) :
    (Engine × Connection) × Option PyError :=
  match notClosedGuard c with
  | some e => ((eng, c), some e)
  | Option.none =>
    let (st, err) := execute { engine := eng, cursor := {} } "ROLLBACK" []
    ((st.engine, c), err)

/-- `Connection.close`: guarded; rolls back, then marks the connection
    closed. -/
def connectionClose (eng : Engine) (c : Connection) :
    (Engine × Connection) × Option PyError :=
  match notClosedGuard c with
  | some e => ((eng, c), some e)
  | Option.none =>
    match connectionRollback eng c with
    | ((eng1, c1), some e) => ((eng1, c1), some e)
    | ((eng1, c1), Option.none) => ((eng1, { c1 with closed := true }), Option.none)

/-- One public execution-layer call, for reasoning about arbitrary call
    sequences on one cursor. -/
inductive CursorOp where
  | exec (operation : String) (params : List TElem)
  | execMany (operation : String) (seq : List (List TElem))

/-- Runs one call, keeping the resulting state whether or not it raised
    (a raised error propagates to the caller but the layer state
    persists). -/
def runOp (st : DriverState) : CursorOp → DriverState
  | .exec operation params => (execute st operation params).1
  | .execMany operation seq => (executemany st operation seq).1

/-- Runs a sequence of execute/executemany calls. -/
def runOps (st : DriverState) : List CursorOp → DriverState
  | [] => st
  | o :: os => runOps (runOp st o) os

/-- Repeated `fetchone` calls on one cursor, collecting each call's result
    in order. -/
def fetchoneN (st : DriverState) : Nat →
    DriverState × List (Except PyError (Option (List TElem)))
  | 0 => (st, [])
  | Nat.succ k =>
    let p := fetchone st
    let q := fetchoneN p.1 k
    (q.1, p.2 :: q.2)

/-- Adds k issued native steps to the engine's counter: the engine-side
    effect of a successful bind-step-reset loop over k parameter
    tuples. -/
def bumpSteps (st : DriverState) (k : Nat) : DriverState :=
  { st with engine := { st.engine with steps := st.engine.steps + k } }

/-- A concrete engine for evaluating the model: every text compiles to a
    two-column template producing one row, and the connection's
    last-insert-row-id value is 42. -/
def engineA : Engine where
  compile := fun _ =>
    { colNames := ["id", "name"], rows := [[.integer 1, .text [97]]] }
  nextHandle := 0
  live := []
  steps := 0
  lastInsertRowid := 42

/-- A concrete driver state: `engineA` and a fresh cursor. -/
def stA : DriverState := { engine := engineA, cursor := {} }

/-- A concrete engine whose native last-insert-row-id does not fit in a
    signed 32-bit integer. -/
def engineB : Engine where
  compile := fun _ => { colNames := [], rows := [] }
  nextHandle := 0
  live := []
  steps := 0
  lastInsertRowid := 2147483648

/-- A concrete driver state over `engineB`. -/
def stB : DriverState := { engine := engineB, cursor := {} }

/-- A concrete iterator whose most recent step reported "done". -/
def itDone : CursorIterator :=
  { current := Option.none, pending := [], prev_step_rc := SQLITE_DONE,
    data_count := 0 }

/-- A concrete driver state holding an exhausted iteration. -/
def stDone : DriverState :=
  { engine := engineA, cursor := { iterator := some itDone } }

/-- A concrete iterator with one row still to deliver. -/
def itRow : CursorIterator :=
  { current := some [.integer 1], pending := [], prev_step_rc := SQLITE_ROW,
    data_count := 1 }

/-- A concrete driver state whose current iteration still has a row. -/
def stRow : DriverState :=
  { engine := engineA, cursor := { iterator := some itRow } }

/-- The resource-discipline invariant of the execution layer: the live
    native statement handles are exactly the one the layer holds (none
    when it holds none), and a held handle is below the fresh-handle
    counter. -/
def StmtInv (st : DriverState) : Prop :=
  match st.cursor.statement with
  | Option.none => st.engine.live = []
  | some s => st.engine.live = [s.handle] ∧ s.handle < st.engine.nextHandle

theorem toCInt_of_fits (i : Int) (h1 : -2147483648 ≤ i) (h2 : i < 2147483648) :
    toCInt i = i := by
  unfold toCInt
  omega

theorem utf8EncodeChar_ascii (c : Char) (h : c.toNat < 128) :
    utf8EncodeChar c = [c.toNat] := by
  unfold utf8EncodeChar
  simp [h]

theorem utf8Encode_ascii (l : List Char) (h : ∀ c ∈ l, c.toNat < 128) :
    (l.map utf8EncodeChar).flatten = l.map Char.toNat := by
  induction l with
  | nil => rfl
  | cons c cs ih =>
    simp [utf8EncodeChar_ascii c (h c (by simp)),
          ih (fun x hx => h x (by simp [hx]))]

theorem takeWhile_map_toNat_pos (l : List Char) (h : ∀ c ∈ l, 0 < c.toNat) :
    (l.map Char.toNat).takeWhile (fun x => !decide (x = 0)) =
      l.map Char.toNat := by
  induction l with
  | nil => rfl
  | cons c cs ih =>
    have h0 : ¬ c.toNat = 0 := by
      have := h c (by simp)
      omega
    simp only [List.map_cons, List.takeWhile_cons, h0, decide_False,
               Bool.not_false, if_true]
    rw [ih (fun x hx => h x (by simp [hx]))]

theorem utf8Decode_ascii (l : List Char) (h : ∀ c ∈ l, c.toNat < 128) :
    utf8Decode (l.map Char.toNat) = some l := by
  induction l with
  | nil => rfl
  | cons c cs ih =>
    have hc : c.toNat < 128 := h c (by simp)
    have ih' := ih (fun x hx => h x (by simp [hx]))
    unfold utf8Decode at ih' ⊢
    rw [List.map_cons, utf8DecodeAux, if_pos hc, ih']
    simp

theorem string_mk_data (s : String) : String.mk s.data = s := by
  cases s
  rfl

theorem roundTrip_int_of_fits (i : Int) (h1 : -2147483648 ≤ i)
    (h2 : i < 2147483648) : roundTrip (.int i) = .ok (.int i) := by
  have ht : toCInt i = i := toCInt_of_fits i h1 h2
  simp [roundTrip, bind_param, sqlite3_bind_store, get_column,
        sqlite3_column_type, sqlite3_column_int, SQLITE_INTEGER, SQLITE_FLOAT,
        SQLITE_TEXT, SQLITE3_TEXT, SQLITE_NULL, ht]

theorem roundTrip_ascii_str (s : String)
    (h : ∀ c ∈ s.data, 0 < c.toNat ∧ c.toNat < 128) :
    roundTrip (.str s) = .ok (.str s) := by
  have h1 : ∀ c ∈ s.data, c.toNat < 128 := fun c hc => (h c hc).2
  have h0 : ∀ c ∈ s.data, 0 < c.toNat := fun c hc => (h c hc).1
  have henc : utf8Encode s = s.data.map Char.toNat := utf8Encode_ascii s.data h1
  have hlen : s.length = s.data.length := rfl
  have htake : (s.data.map Char.toNat).take s.length = s.data.map Char.toNat := by
    rw [hlen, ← List.length_map s.data Char.toNat, List.take_length]
  simp [roundTrip, bind_param, sqlite3_bind_store, henc, htake, get_column,
        sqlite3_column_type, sqlite3_column_text, SQLITE_INTEGER, SQLITE_FLOAT,
        SQLITE_TEXT, SQLITE3_TEXT, SQLITE_NULL,
        takeWhile_map_toNat_pos s.data h0, utf8Decode_ascii s.data h1,
        string_mk_data s]

/-- C4 counterexample: binding a binary value and reading it back does not
    yield an equal value — the bind itself raises TypeError (the source
    passes the bytes object to ctypes.c_void_p), so the round trip of
    `b"\x01\x02\x03"` is an error, not the bound value.  (Even a blob cell
    already stored in a table is unreadable: get_column has no branch for
    the blob type tag and raises NotImplementedError.) -/
theorem c4_binary_roundTrip_fails :
    roundTrip (.bytes [1, 2, 3]) =
      .error (.typeError "cannot be converted to pointer")
    ∧ roundTrip (.bytes [1, 2, 3]) ≠ .ok (.bytes [1, 2, 3]) := by
  constructor <;> decide

/-- C4 (amended): binding a scalar then reading it back yields an equal
    value for integers in the signed 32-bit range, for text whose
    characters are non-NUL ASCII, and for null.  Integers outside that
    range wrap (the bind call goes through the 32-bit
    `sqlite3_bind_int`), text is stored truncated to its character count
    in bytes (so non-ASCII text does not survive), floats do not round
    trip at all — the double bind succeeds but the column read never
    declares a restype, so it returns a garbage C int, never the stored
    double — and binary values fail: the bind raises TypeError. -/
theorem c4_roundTrip_by_kind :
    (∀ i : Int, -2147483648 ≤ i → i < 2147483648 →
        roundTrip (.int i) = .ok (.int i))
    ∧ (∀ f : F64, (∃ n : Int, roundTrip (.float f) = .ok (.int n))
        ∧ roundTrip (.float f) ≠ .ok (.float f))
    ∧ (∀ s : String, (∀ c ∈ s.data, 0 < c.toNat ∧ c.toNat < 128) →
        roundTrip (.str s) = .ok (.str s))
    ∧ roundTrip .none = .ok .none
    ∧ (∀ b : List Nat, roundTrip (.bytes b) =
        .error (.typeError "cannot be converted to pointer")) := by
  refine ⟨roundTrip_int_of_fits, fun f => ⟨⟨column_double_restype_garbage, ?_⟩, ?_⟩,
          roundTrip_ascii_str, by decide, fun b => rfl⟩ <;>
    simp [roundTrip, bind_param, sqlite3_bind_store, get_column,
          sqlite3_column_type, sqlite3_column_double, SQLITE_INTEGER,
          SQLITE_FLOAT, SQLITE_TEXT, SQLITE3_TEXT, SQLITE_NULL]

theorem c4_roundTrip_by_kind_witness :
    roundTrip (.int 7) = .ok (.int 7)
    ∧ roundTrip (.float ⟨5⟩) ≠ .ok (.float ⟨5⟩)
    ∧ roundTrip (.str "id") = .ok (.str "id")
    ∧ roundTrip (.bytes []) =
        .error (.typeError "cannot be converted to pointer") :=
  ⟨c4_roundTrip_by_kind.1 7 (by decide) (by decide),
   (c4_roundTrip_by_kind.2.1 ⟨5⟩).2,
   c4_roundTrip_by_kind.2.2.1 "id" (by decide),
   c4_roundTrip_by_kind.2.2.2.2 []⟩

/-- C6 counterexample: the integer 2^31 is not transmitted to the engine
    unchanged — the int branch of bind_param calls the 32-bit
    `sqlite3_bind_int`, and the value reaching the engine is the wrapped
    -2^31, so integers are reduced to 32 bits, not bound as native 64-bit
    integers. -/
theorem c6_bind_int_not_64bit :
    bind_param (.int 2147483648) = .ok (.bindInt (-2147483648))
    ∧ bind_param (.int 2147483648) ≠ .ok (.bindInt 2147483648) := by
  constructor <;> decide

/-- C6 (amended): the value codec binds integers through the native
    32-bit integer bind, with the value wrapped into the signed 32-bit
    range (so exactly the integers representable in 32 bits are
    transmitted unchanged); floats bind as native doubles; text binds as
    a UTF-8 buffer with forced copy whose byte count is the character
    count of the string; binary values do not reach the engine (the
    pointer conversion of the bytes buffer raises TypeError); and null
    binds as an explicit native null. -/
theorem c6_bind_param_by_kind :
    (∀ i : Int, bind_param (.int i) = .ok (.bindInt (toCInt i)))
    ∧ (∀ i : Int, -2147483648 ≤ i → i < 2147483648 →
        bind_param (.int i) = .ok (.bindInt i))
    ∧ (∀ f : F64, bind_param (.float f) = .ok (.bindDouble f))
    ∧ (∀ s : String,
        bind_param (.str s) = .ok (.bindText (utf8Encode s) s.length true))
    ∧ (∀ b : List Nat, bind_param (.bytes b) =
        .error (.typeError "cannot be converted to pointer"))
    ∧ bind_param .none = .ok .bindNull := by
  refine ⟨fun i => rfl, fun i h1 h2 => ?_, fun f => rfl, fun s => rfl,
          fun b => rfl, rfl⟩
  rw [show bind_param (.int i) = .ok (.bindInt (toCInt i)) from rfl,
      toCInt_of_fits i h1 h2]

theorem c6_bind_param_by_kind_witness :
    bind_param (.int 3) = .ok (.bindInt 3)
    ∧ bind_param (.str "x") = .ok (.bindText (utf8Encode "x") 1 true) :=
  ⟨c6_bind_param_by_kind.2.1 3 (by decide) (by decide),
   c6_bind_param_by_kind.2.2.2.1 "x"⟩

/-- C9 counterexample: assigning the float 12.3 (bit pattern of the
    double) to arraysize raises the builtin TypeError, not a programming
    error from the driver taxonomy. -/
theorem c9_arraysize_float_raises_typeerror :
    (setArraysize stA (.float ⟨0x402899999999999A⟩)).2 =
      some (.typeError "Attribute arraysize must be int.")
    ∧ ¬ ∃ msg, (setArraysize stA (.float ⟨0x402899999999999A⟩)).2 =
        some (.programmingError msg) := by
  refine ⟨by decide, ?_⟩
  rintro ⟨msg, h⟩
  simp [setArraysize] at h

/-- C9 (amended): the arraysize setter rejects a non-integer value with
    the builtin TypeError citing the integer requirement, rejects an
    integer below 1 with the builtin ValueError citing "1 or more" (not
    with the driver's programming error in either case), leaves the
    stored arraysize unchanged on both rejections (validation happens
    before mutation), and stores integer values of at least 1. -/
theorem c9_arraysize_setter :
    (∀ (st : DriverState) (v : TElem), (∀ i : Int, v ≠ TElem.int i) →
        setArraysize st v =
          (st, some (.typeError "Attribute arraysize must be int.")))
    ∧ (∀ (st : DriverState) (i : Int), i < 1 →
        setArraysize st (.int i) =
          (st, some (.valueError "Attribute arraysize must be 1 or more.")))
    ∧ (∀ (st : DriverState) (i : Int), 1 ≤ i →
        setArraysize st (.int i) =
          ({ st with cursor := { st.cursor with arraysize := i } },
           Option.none)) := by
  refine ⟨fun st v hv => ?_, fun st i hi => ?_, fun st i hi => ?_⟩
  · cases v with
    | int i => exact absurd rfl (hv i)
    | float f => rfl
    | str s => rfl
    | bytes b => rfl
    | none => rfl
  · simp [setArraysize, hi]
  · simp [setArraysize]
    omega

theorem c9_arraysize_setter_witness :
    setArraysize stA (.str "12")
      = (stA, some (.typeError "Attribute arraysize must be int."))
    ∧ setArraysize stA (.int (-1))
      = (stA, some (.valueError "Attribute arraysize must be 1 or more."))
    ∧ setArraysize stA (.int 2)
      = ({ stA with cursor := { stA.cursor with arraysize := 2 } },
         Option.none) :=
  ⟨c9_arraysize_setter.1 stA (.str "12") (fun i h => by cases h),
   c9_arraysize_setter.2.1 stA (-1) (by decide),
   c9_arraysize_setter.2.2 stA 2 (by decide)⟩

/-- C1: once a statement iterator's most recent native step returned
    "done", requesting the next row raises StopIteration with the
    iterator, the engine state and the native step counter all unchanged
    (no further native step call is issued on the statement); fetchone
    on the cursor returns none with the whole driver state unchanged;
    and any number of repeated fetchone calls keep returning none,
    still without issuing a step. -/
theorem c1_done_exhaustion :
    ∀ (st : DriverState) (it : CursorIterator),
      st.cursor.iterator = some it → it.prev_step_rc = SQLITE_DONE →
      CursorIterator.next st.engine it = (st.engine, it, .ok Option.none)
      ∧ fetchone st = (st, .ok Option.none)
      ∧ ∀ k : Nat,
          fetchoneN st k = (st, List.replicate k (.ok Option.none)) := by
  intro st it h hrc
  have hnext : CursorIterator.next st.engine it =
      (st.engine, it, .ok Option.none) := by
    unfold CursorIterator.next
    rw [if_pos hrc]
  have hf : fetchone st = (st, .ok Option.none) := by
    simp only [fetchone, h, hnext]
    rw [← h]
  refine ⟨hnext, hf, ?_⟩
  intro k
  induction k with
  | zero => rfl
  | succ m ih => simp [fetchoneN, hf, ih, List.replicate_succ]

theorem c1_done_exhaustion_witness :
    fetchone stDone = (stDone, .ok Option.none)
    ∧ fetchoneN stDone 3 = (stDone, List.replicate 3 (.ok Option.none)) :=
  ⟨(c1_done_exhaustion stDone itDone rfl rfl).2.1,
   (c1_done_exhaustion stDone itDone rfl rfl).2.2 3⟩

theorem fetchLoop_zero (st : DriverState) : fetchLoop st 0 = (st, .ok []) :=
  rfl

theorem fetchLoop_succ_row (st st1 : DriverState) (r : List TElem) (m : Nat)
    (hf : fetchone st = (st1, .ok (some r))) :
    fetchLoop st (m + 1) =
      match fetchLoop st1 m with
      | (st2, .error e) => (st2, .error e)
      | (st2, .ok rs) => (st2, .ok (r :: rs)) := by
  conv_lhs => rw [fetchLoop]
  rw [hf]

theorem fetchLoop_length :
    ∀ (n : Nat) (st : DriverState) (rs : List (List TElem)),
      (fetchLoop st n).2 = .ok rs → rs.length ≤ n := by
  intro n
  induction n with
  | zero =>
    intro st rs h
    rw [fetchLoop_zero] at h
    simp at h
    simp [h]
  | succ m ih =>
    intro st rs h
    rcases hf : fetchone st with ⟨st1, res⟩
    rcases res with e | o
    · unfold fetchLoop at h
      rw [hf] at h
      simp at h
    · rcases o with _ | r
      · unfold fetchLoop at h
        rw [hf] at h
        simp at h
        simp [h]
      · rw [fetchLoop_succ_row st st1 r m hf] at h
        rcases hl : fetchLoop st1 m with ⟨st2, res2⟩
        rw [hl] at h
        rcases res2 with e | rs2
        · simp at h
        · simp at h
          have := ih st1 rs2 (by rw [hl])
          simp [← h]
          omega

/-- C10: on a cursor whose current iteration still has a row to deliver,
    fetchmany with an explicit size of 0 behaves exactly like fetchmany
    with no size argument — the size is tested for truthiness, so 0 falls
    back to arraysize — and (the iteration being non-empty and arraysize
    at least 1) the materialized result is not the empty sequence and
    holds at most arraysize rows, consumed from the iteration. -/
theorem c10_fetchmany_zero :
    ∀ (st : DriverState) (it : CursorIterator) (r : List TElem),
      st.cursor.iterator = some it →
      it.prev_step_rc ≠ SQLITE_DONE →
      readRow (it.current.getD []) it.data_count = .ok r →
      1 ≤ st.cursor.arraysize →
      fetchmany st (some 0) = fetchmany st Option.none
      ∧ ∀ rs, (fetchmany st (some 0)).2 = .ok rs →
          rs ≠ [] ∧ rs.length ≤ st.cursor.arraysize.toNat := by
  intro st it r h hrc hread hsize
  have hsame : fetchmany st (some 0) = fetchmany st Option.none := rfl
  refine ⟨hsame, ?_⟩
  intro rs hrs
  obtain ⟨m, hm⟩ : ∃ m, st.cursor.arraysize.toNat = m + 1 := by
    refine ⟨st.cursor.arraysize.toNat - 1, ?_⟩
    omega
  have hneg : ¬ st.cursor.arraysize < 0 := by omega
  have hmany : fetchmany st (some 0) = fetchLoop st (m + 1) := by
    unfold fetchmany
    simp [hneg, hm]
  rw [hmany] at hrs
  have hnext : CursorIterator.next st.engine it =
      ({ st.engine with steps := st.engine.steps + 1 }, it.afterStep,
       .ok (some r)) := by
    unfold CursorIterator.next
    rw [if_neg hrc, hread]
  have hf : fetchone st =
      ({ engine := { st.engine with steps := st.engine.steps + 1 },
         cursor := { st.cursor with iterator := some it.afterStep } },
       .ok (some r)) := by
    simp only [fetchone, h, hnext]
  rw [fetchLoop_succ_row st _ r m hf] at hrs
  rcases hl : fetchLoop
      { engine := { st.engine with steps := st.engine.steps + 1 },
        cursor := { st.cursor with iterator := some it.afterStep } } m
    with ⟨st2, res2⟩
  rw [hl] at hrs
  rcases res2 with e | rs2
  · simp at hrs
  · simp at hrs
    have hlen := fetchLoop_length m _ rs2 (by rw [hl])
    constructor
    · simp [← hrs]
    · rw [← hrs, hm]
      simp
      omega

theorem c10_fetchmany_zero_witness :
    fetchmany stRow (some 0) = fetchmany stRow Option.none
    ∧ (fetchmany stRow (some 0)).2 = .ok [[TElem.int 1]] :=
  ⟨(c10_fetchmany_zero stRow itRow [TElem.int 1] rfl (by decide) (by decide)
      (by decide)).1,
   by decide⟩

theorem call_hooks_of_command (st : DriverState) (operation c : String)
    (h : get_operation_command operation = .ok c) :
    call_hooks st operation =
      ({ st with cursor := { st.cursor with
          description :=
            if c = "SELECT" then
              some ((match st.cursor.statement with
                     | some s => s.colNames
                     | Option.none => []).map descriptionRecord)
            else Option.none,
          lastrowid :=
            if c = "INSERT" ∨ c = "REPLACE" then
              some (toCInt st.engine.lastInsertRowid)
            else Option.none } },
       Option.none) := by
  unfold call_hooks update_description update_lastrowid is_dql_opreation
  rw [h]
  by_cases hsel : c = "SELECT" <;>
    by_cases hins : c = "INSERT" ∨ c = "REPLACE" <;>
      simp [hsel, hins, Except.map]

theorem emLoop_of_binds :
    ∀ (seq : List (List TElem)) (st : DriverState),
      (∀ ps ∈ seq, bindAll ps = Option.none) →
      emLoop st seq = (bumpSteps st seq.length, Option.none) := by
  intro seq
  induction seq with
  | nil =>
    intro st h
    simp [emLoop, bumpSteps]
  | cons ps rest ih =>
    intro st h
    have h1 : bindAll ps = Option.none := h ps (by simp)
    have h2 := ih
      { st with engine := { st.engine with steps := st.engine.steps + 1 } }
      (fun q hq => h q (by simp [hq]))
    simp [emLoop, h1, h2, bumpSteps]
    omega

theorem prepareStmt_fields (st : DriverState) (operation : String) :
    (prepareStmt st operation).1.cursor.statement =
      some (prepareStmt st operation).2
    ∧ (prepareStmt st operation).2.colNames =
        (st.engine.compile operation).colNames
    ∧ (prepareStmt st operation).2.rows = (st.engine.compile operation).rows
    ∧ (prepareStmt st operation).1.engine.compile = st.engine.compile
    ∧ (prepareStmt st operation).1.engine.lastInsertRowid =
        st.engine.lastInsertRowid
    ∧ (prepareStmt st operation).1.cursor.arraysize = st.cursor.arraysize := by
  unfold prepareStmt finalizeStmt
  rcases hcs : st.cursor.statement with _ | s <;> simp [hcs]

theorem execute_hook_fields (st : DriverState) (operation : String)
    (params : List TElem) (c : String)
    (h : get_operation_command operation = .ok c)
    (hb : bindAll params = Option.none) :
    (execute st operation params).2 = Option.none
    ∧ (execute st operation params).1.cursor.description =
        (if c = "SELECT" then
          some ((st.engine.compile operation).colNames.map descriptionRecord)
        else Option.none)
    ∧ (execute st operation params).1.cursor.lastrowid =
        (if c = "INSERT" ∨ c = "REPLACE" then
          some (toCInt st.engine.lastInsertRowid)
        else Option.none) := by
  rcases hp : prepareStmt st operation with ⟨st1, s1⟩
  have hs := prepareStmt_fields st operation
  rw [hp] at hs
  simp only [] at hs
  obtain ⟨hs1, hs2, _, _, hs5, _⟩ := hs
  have e1 : execute st operation params =
      call_hooks
        { engine := (CursorIterator.exec_and_iter st1.engine s1).1,
          cursor := { st1.cursor with
            iterator := some (CursorIterator.exec_and_iter st1.engine s1).2 } }
        operation := by
    simp only [execute, hp, hb, CursorIterator.exec_and_iter]
  rw [call_hooks_of_command _ operation c h] at e1
  rw [e1]
  simp only [CursorIterator.exec_and_iter]
  refine ⟨by simp, ?_, ?_⟩
  · by_cases hsel : c = "SELECT" <;> simp [hsel, hs1, hs2]
  · by_cases hins : c = "INSERT" ∨ c = "REPLACE" <;> simp [hins, hs5]

/-- C5: executemany on a text whose upper-cased first token is outside
    the fixed DML set raises the programming error "executemany() can
    only execute DML statements." with the driver state returned exactly
    as it was — nothing is prepared and no step is issued; on a text
    inside the set (the binds going through) it completes without error,
    clears the iterator, and leaves the fetch sequence empty: fetchone
    yields none and fetchall the empty list. -/
theorem c5_executemany_dml_gate :
    (∀ (st : DriverState) (operation : String) (seq : List (List TElem))
        (c : String),
        get_operation_command operation = .ok c → c ∉ DML_COMMANDS →
        executemany st operation seq =
          (st, some (.programmingError
            "executemany() can only execute DML statements.")))
    ∧ (∀ (st : DriverState) (operation : String) (seq : List (List TElem))
        (c : String),
        get_operation_command operation = .ok c → c ∈ DML_COMMANDS →
        (∀ ps ∈ seq, bindAll ps = Option.none) →
        (executemany st operation seq).2 = Option.none
        ∧ (executemany st operation seq).1.cursor.iterator = Option.none
        ∧ fetchone (executemany st operation seq).1 =
            ((executemany st operation seq).1, .ok Option.none)
        ∧ fetchall (executemany st operation seq).1 =
            ((executemany st operation seq).1, .ok [])) := by
  constructor
  · intro st operation seq c h hc
    have hd : is_dml_operation operation = .ok false := by
      simp [is_dml_operation, h, hc, Except.map]
    simp [executemany, hd]
  · intro st operation seq c h hc hb
    have hd : is_dml_operation operation = .ok true := by
      simp [is_dml_operation, h, hc, Except.map]
    rcases hp : prepareStmt st operation with ⟨st1, s1⟩
    have hloop := emLoop_of_binds seq st1 hb
    have e1 : executemany st operation seq =
        call_hooks
          { bumpSteps st1 seq.length with
            cursor := { st1.cursor with iterator := Option.none } }
          operation := by
      simp only [executemany, hd, hp, hloop, bumpSteps]
    rw [call_hooks_of_command _ operation c h] at e1
    rw [e1]
    refine ⟨rfl, rfl, ?_, ?_⟩
    · simp [fetchone]
    · simp [fetchall]

theorem c5_executemany_dml_gate_witness :
    executemany stA "SELECT * FROM users" [] =
      (stA, some (.programmingError
        "executemany() can only execute DML statements."))
    ∧ (executemany stA "INSERT INTO users VALUES (?)" [[TElem.int 0]]).2 =
        Option.none
    ∧ fetchall (executemany stA "INSERT INTO users VALUES (?)"
        [[TElem.int 0]]).1 =
      ((executemany stA "INSERT INTO users VALUES (?)" [[TElem.int 0]]).1,
       .ok []) :=
  ⟨c5_executemany_dml_gate.1 stA "SELECT * FROM users" [] "SELECT"
      (by decide) (by decide),
   (c5_executemany_dml_gate.2 stA "INSERT INTO users VALUES (?)"
      [[TElem.int 0]] "INSERT" (by decide) (by decide) (by decide)).1,
   (c5_executemany_dml_gate.2 stA "INSERT INTO users VALUES (?)"
      [[TElem.int 0]] "INSERT" (by decide) (by decide) (by decide)).2.2.2⟩

/-- C7: on every completed execute, if the operation's command token is
    not SELECT the description is set to none; if it is SELECT the
    description is exactly one record per native result column of the
    compiled statement, each record the column's name paired with six
    null placeholder fields.  The value written depends only on the
    current operation and compiled statement — any previously stored
    description is overwritten, never accumulated. -/
theorem c7_description_update :
    ∀ (st : DriverState) (operation : String) (params : List TElem)
      (c : String),
      get_operation_command operation = .ok c →
      bindAll params = Option.none →
      (execute st operation params).2 = Option.none
      ∧ (c ≠ "SELECT" →
          (execute st operation params).1.cursor.description = Option.none)
      ∧ (c = "SELECT" →
          (execute st operation params).1.cursor.description =
            some ((st.engine.compile operation).colNames.map
              descriptionRecord)) := by
  intro st operation params c h hb
  obtain ⟨h1, h2, _⟩ := execute_hook_fields st operation params c h hb
  refine ⟨h1, fun hne => ?_, fun heq => ?_⟩
  · rw [h2, if_neg hne]
  · rw [h2, if_pos heq]

theorem c7_description_update_witness :
    ((execute stA "SELECT * FROM users" []).1.cursor.description =
      some [("id", [Option.none, Option.none, Option.none, Option.none,
                    Option.none, Option.none]),
            ("name", [Option.none, Option.none, Option.none, Option.none,
                      Option.none, Option.none])])
    ∧ (execute stA "DELETE FROM users" []).1.cursor.description =
        Option.none := by
  constructor
  · have := (c7_description_update stA "SELECT * FROM users" [] "SELECT"
      (by decide) (by decide)).2.2 rfl
    rw [this]
    decide
  · exact (c7_description_update stA "DELETE FROM users" [] "DELETE"
      (by decide) (by decide)).2.1 (by decide)

/-- C8 counterexample: with the connection's native last-insert-row-id
    equal to 2^31, executing an INSERT sets lastrowid to -2^31, not to
    the native value — the source reads sqlite3_last_insert_rowid (an
    int64 return) without declaring a restype, so ctypes wraps the value
    through its default C int return type. -/
theorem c8_lastrowid_not_native :
    (execute stB "INSERT INTO t VALUES (1)" []).1.cursor.lastrowid =
      some (-2147483648)
    ∧ (execute stB "INSERT INTO t VALUES (1)" []).1.cursor.lastrowid ≠
        some stB.engine.lastInsertRowid := by
  constructor <;> decide

/-- C8 (amended): on every completed execute, if the operation's command
    token is exactly INSERT or REPLACE the cursor's lastrowid is set to
    the connection-scoped native last-insert-row-id wrapped into the
    signed 32-bit range (the read goes through ctypes' default C int
    return type because no restype is declared), hence equal to the
    native value exactly when that value is representable in 32 bits; it
    is never read from the statement; for every other command lastrowid
    is set to none. -/
theorem c8_lastrowid_update :
    ∀ (st : DriverState) (operation : String) (params : List TElem)
      (c : String),
      get_operation_command operation = .ok c →
      bindAll params = Option.none →
      ((c = "INSERT" ∨ c = "REPLACE") →
          (execute st operation params).1.cursor.lastrowid =
            some (toCInt st.engine.lastInsertRowid))
      ∧ ((c = "INSERT" ∨ c = "REPLACE") →
          -2147483648 ≤ st.engine.lastInsertRowid →
          st.engine.lastInsertRowid < 2147483648 →
          (execute st operation params).1.cursor.lastrowid =
            some st.engine.lastInsertRowid)
      ∧ (¬(c = "INSERT" ∨ c = "REPLACE") →
          (execute st operation params).1.cursor.lastrowid =
            Option.none) := by
  intro st operation params c h hb
  obtain ⟨_, _, h3⟩ := execute_hook_fields st operation params c h hb
  refine ⟨fun hin => ?_, fun hin h1 h2 => ?_, fun hout => ?_⟩
  · rw [h3, if_pos hin]
  · rw [h3, if_pos hin, toCInt_of_fits st.engine.lastInsertRowid h1 h2]
  · rw [h3, if_neg hout]

theorem c8_lastrowid_update_witness :
    (execute stA "INSERT INTO users VALUES (1)" []).1.cursor.lastrowid =
      some 42
    ∧ (execute stA "SELECT * FROM users" []).1.cursor.lastrowid =
        Option.none := by
  constructor
  · have := (c8_lastrowid_update stA "INSERT INTO users VALUES (1)" []
      "INSERT" (by decide) (by decide)).2.1 (Or.inl rfl) (by decide)
      (by decide)
    rw [this]
    decide
  · exact (c8_lastrowid_update stA "SELECT * FROM users" [] "SELECT"
      (by decide) (by decide)).2.2 (by decide)

theorem stmtInv_transfer (a b : DriverState)
    (h1 : b.engine.live = a.engine.live)
    (h2 : b.engine.nextHandle = a.engine.nextHandle)
    (h3 : b.cursor.statement = a.cursor.statement)
    (h : StmtInv a) : StmtInv b := by
  unfold StmtInv at h ⊢
  rcases ha : a.cursor.statement with _ | s
  · rw [ha] at h
    rw [h3, ha, h1]
    exact h
  · rw [ha] at h
    rw [h3, ha, h1, h2]
    exact h

theorem stmtInv_finalize (st : DriverState) (h : StmtInv st) :
    (finalizeStmt st).cursor.statement = Option.none
    ∧ (finalizeStmt st).engine.live = []
    ∧ (finalizeStmt st).engine.nextHandle = st.engine.nextHandle := by
  unfold StmtInv at h
  unfold finalizeStmt
  rcases hcs : st.cursor.statement with _ | s
  · rw [hcs] at h
    simp [hcs, h]
  · rw [hcs] at h
    simp [hcs, h.1]

theorem stmtInv_prepare (st : DriverState) (operation : String)
    (h : StmtInv st) : StmtInv (prepareStmt st operation).1 := by
  obtain ⟨f1, f2, f3⟩ := stmtInv_finalize st h
  unfold prepareStmt StmtInv
  simp [f2]

theorem prepare_removes_previous (st : DriverState) (operation : String)
    (s : PreparedStmt) (h : StmtInv st) (hs : st.cursor.statement = some s) :
    s.handle ∉ (prepareStmt st operation).1.engine.live := by
  obtain ⟨f1, f2, f3⟩ := stmtInv_finalize st h
  unfold StmtInv at h
  rw [hs] at h
  unfold prepareStmt
  simp [f2, f3]
  omega

theorem call_hooks_preserves (st : DriverState) (operation : String) :
    (call_hooks st operation).1.engine = st.engine
    ∧ (call_hooks st operation).1.cursor.statement = st.cursor.statement
    ∧ (call_hooks st operation).1.cursor.iterator = st.cursor.iterator := by
  unfold call_hooks update_description update_lastrowid is_dql_opreation
  rcases hg : get_operation_command operation with e | c
  · simp [hg, Except.map]
  · simp only [hg, Except.map]
    by_cases hsel : c = "SELECT" <;>
      by_cases hins : c = "INSERT" ∨ c = "REPLACE" <;>
        simp [hsel, hins]

theorem emLoop_preserves :
    ∀ (seq : List (List TElem)) (st : DriverState),
      (emLoop st seq).1.cursor = st.cursor
      ∧ (emLoop st seq).1.engine.live = st.engine.live
      ∧ (emLoop st seq).1.engine.nextHandle = st.engine.nextHandle := by
  intro seq
  induction seq with
  | nil => intro st; simp [emLoop]
  | cons ps rest ih =>
    intro st
    unfold emLoop
    rcases hb : bindAll ps with _ | e
    · obtain ⟨i1, i2, i3⟩ := ih
        { st with engine := { st.engine with steps := st.engine.steps + 1 } }
      simp [i1, i2, i3]
    · simp

theorem stmtInv_execute (st : DriverState) (operation : String)
    (params : List TElem) (h : StmtInv st) :
    StmtInv (execute st operation params).1 := by
  have hp := stmtInv_prepare st operation h
  rcases hbp : prepareStmt st operation with ⟨st1, s1⟩
  rw [hbp] at hp
  unfold execute
  rw [hbp]
  rcases hb : bindAll params with _ | e
  · obtain ⟨ce, cs, _⟩ := call_hooks_preserves
      { engine := (CursorIterator.exec_and_iter st1.engine s1).1,
        cursor := { st1.cursor with
          iterator := some (CursorIterator.exec_and_iter st1.engine s1).2 } }
      operation
    refine stmtInv_transfer st1 _ ?_ ?_ ?_ hp
    · rw [ce]
      simp [CursorIterator.exec_and_iter]
    · rw [ce]
      simp [CursorIterator.exec_and_iter]
    · rw [cs]
  · exact hp

theorem stmtInv_executemany (st : DriverState) (operation : String)
    (seq : List (List TElem)) (h : StmtInv st) :
    StmtInv (executemany st operation seq).1 := by
  unfold executemany
  split
  · exact h
  · exact h
  · split
    next st1 s1 hbp =>
      split
      next st2 e hle =>
        have hp := stmtInv_prepare st operation h
        rw [hbp] at hp
        obtain ⟨l1, l2, l3⟩ := emLoop_preserves seq st1
        rw [hle] at l1 l2 l3
        exact stmtInv_transfer st1 st2 l2 l3 (by rw [l1]) hp
      next st2 hle =>
        have hp := stmtInv_prepare st operation h
        rw [hbp] at hp
        obtain ⟨l1, l2, l3⟩ := emLoop_preserves seq st1
        rw [hle] at l1 l2 l3
        have hp2 : StmtInv st2 :=
          stmtInv_transfer st1 st2 l2 l3 (by rw [l1]) hp
        obtain ⟨ce, cs, _⟩ := call_hooks_preserves
          { st2 with cursor := { st2.cursor with iterator := Option.none } }
          operation
        refine stmtInv_transfer st2 _ ?_ ?_ ?_ hp2
        · rw [ce]
        · rw [ce]
        · rw [cs]

theorem stmtInv_runOps :
    ∀ (ops : List CursorOp) (st : DriverState),
      StmtInv st → StmtInv (runOps st ops) := by
  intro ops
  induction ops with
  | nil => intro st h; exact h
  | cons o os ih =>
    intro st h
    rcases o with ⟨operation, params⟩ | ⟨operation, seq⟩
    · exact ih _ (stmtInv_execute st operation params h)
    · exact ih _ (stmtInv_executemany st operation seq h)

/-- C2: the execution layer holds at most one live compiled statement at
    every point of every execute/executemany sequence.  Finalizing with no
    statement held is a no-op (no native call, the engine is untouched and
    the reference stays null); finalizing always nulls the layer's
    statement reference; preparing a new statement first finalizes the
    held one, whose handle is therefore no longer live after the prepare;
    and along any call sequence started from a state satisfying the
    single-statement invariant, the invariant is preserved and the set of
    live native handles never exceeds one — no statement handle leaks
    across repeated executions on one cursor. -/
theorem c2_single_live_statement :
    (∀ st : DriverState, st.cursor.statement = Option.none →
        (finalizeStmt st).engine = st.engine
        ∧ (finalizeStmt st).cursor.statement = Option.none)
    ∧ (∀ st : DriverState, (finalizeStmt st).cursor.statement = Option.none)
    ∧ (∀ (st : DriverState) (operation : String) (s : PreparedStmt),
        StmtInv st → st.cursor.statement = some s →
        s.handle ∉ (prepareStmt st operation).1.engine.live)
    ∧ (∀ (st : DriverState) (ops : List CursorOp),
        StmtInv st → StmtInv (runOps st ops))
    ∧ (∀ (st : DriverState) (ops : List CursorOp),
        StmtInv st → (runOps st ops).engine.live.length ≤ 1) := by
  have hfin : ∀ st : DriverState,
      (finalizeStmt st).cursor.statement = Option.none := by
    intro st
    unfold finalizeStmt
    rcases hcs : st.cursor.statement with _ | s <;> simp [hcs]
  refine ⟨fun st h => ?_, hfin, ?_, ?_, ?_⟩
  · constructor
    · unfold finalizeStmt
      simp [h]
    · exact hfin st
  · intro st operation s h hs
    exact prepare_removes_previous st operation s h hs
  · intro st ops h
    exact stmtInv_runOps ops st h
  · intro st ops h
    have hinv := stmtInv_runOps ops st h
    unfold StmtInv at hinv
    rcases hcs : (runOps st ops).cursor.statement with _ | s
    · rw [hcs] at hinv
      rw [hinv]
      simp
    · rw [hcs] at hinv
      rw [hinv.1]
      simp

theorem c2_single_live_statement_witness :
    StmtInv (runOps stA
      [CursorOp.exec "SELECT * FROM users" [],
       CursorOp.execMany "INSERT INTO users VALUES (?)" [[TElem.int 1]],
       CursorOp.exec "INSERT INTO users VALUES (2)" []])
    ∧ (runOps stA
        [CursorOp.exec "SELECT * FROM users" [],
         CursorOp.execMany "INSERT INTO users VALUES (?)" [[TElem.int 1]],
         CursorOp.exec "INSERT INTO users VALUES (2)" []]).engine.live.length
        ≤ 1
    ∧ (finalizeStmt stA).engine = stA.engine :=
  ⟨c2_single_live_statement.2.2.2.1 stA _ (by simp [StmtInv, stA, engineA]),
   c2_single_live_statement.2.2.2.2 stA _ (by simp [StmtInv, stA, engineA]),
   (c2_single_live_statement.1 stA rfl).1⟩

/-- C3 (code bug): the connection side of the claim holds — after close,
    each of cursor(), commit(), rollback() and close() raises the
    programming error "Cannot operate on a closed database." — but the
    cursor side does not: CursorExecutionLayer.close takes an operation
    argument and does nothing, the Cursor carries no closed flag, no
    public cursor operation consults its own or its connection's closed
    state, and execute after close completes without raising any error,
    contradicting the repository's own test_close_cursor. -/
theorem c3_closed_enforcement :
    (∀ (eng : Engine) (conn : Connection), conn.closed = true →
        (connectionCursor eng conn).2 =
          .error (.programmingError "Cannot operate on a closed database.")
        ∧ (connectionCommit eng conn).2 =
            some (.programmingError "Cannot operate on a closed database.")
        ∧ (connectionRollback eng conn).2 =
            some (.programmingError "Cannot operate on a closed database.")
        ∧ (connectionClose eng conn).2 =
            some (.programmingError "Cannot operate on a closed database."))
    ∧ (∀ (eng : Engine) (conn : Connection), conn.closed = false →
        (connectionClose eng conn).1.2.closed = true
        ∧ (connectionClose eng conn).2 = Option.none)
    ∧ (∀ (st : DriverState) (operation : String),
        cursorClose st operation = st)
    ∧ (execute (cursorClose stA "unused") "SELECT 1" []).2 = Option.none := by
  refine ⟨fun eng conn h => ?_, fun eng conn h => ?_, fun st operation => rfl,
          by decide⟩
  · refine ⟨?_, ?_, ?_, ?_⟩ <;>
      simp [connectionCursor, connectionCommit, connectionRollback,
            connectionClose, notClosedGuard, h]
  · have hr : (execute { engine := eng, cursor := {} } "ROLLBACK" []).2 =
        Option.none :=
      (execute_hook_fields { engine := eng, cursor := {} } "ROLLBACK" []
        "ROLLBACK" (by decide) rfl).1
    rcases he : execute { engine := eng, cursor := {} } "ROLLBACK" []
      with ⟨st', err⟩
    rw [he] at hr
    simp only [] at hr
    subst hr
    constructor <;>
      simp [connectionClose, connectionRollback, notClosedGuard, h, he]

theorem c3_closed_enforcement_witness :
    (connectionCursor engineA { closed := true }).2 =
      .error (.programmingError "Cannot operate on a closed database.")
    ∧ (connectionCommit engineA { closed := true }).2 =
        some (.programmingError "Cannot operate on a closed database.")
    ∧ (connectionClose engineA { closed := false }).1.2.closed = true
    ∧ cursorClose stA "x" = stA :=
  ⟨(c3_closed_enforcement.1 engineA { closed := true } rfl).1,
   (c3_closed_enforcement.1 engineA { closed := true } rfl).2.1,
   (c3_closed_enforcement.2.1 engineA { closed := false } rfl).1,
   c3_closed_enforcement.2.2.1 stA "x"⟩

end GSqlite
